import Mathlib

/-!
Verification of the `opentelemetry-derive` annotation-parsing and
code-synthesis pipeline.

The repository ships the public façade crate (`opentelemetry-derive`),
which re-exports the four derive macros `Key`, `Value`, `StringValue` and
`KeyValue` from the implementation crate `opentelemetry_derive_impl` and
exercises them in contract-level tests.  The implementation crate itself
is not part of the sources, so the engine (attribute parsing, per
capability validation, conversion synthesis) is modelled here from the
specification, and the façade's tests supply the concrete scenarios.

The target telemetry data-model types (`Key`, `Value`, `StringValue`,
`KeyValue` of the `opentelemetry` crate) are shallowly embedded: a `Key`
wraps its name string, a `Value` is the relevant subset of the variants
(booleans, 64-bit integers, strings), a `KeyValue` pairs a key with a
value, and `asStr` mirrors the `as_str` accessors used by the tests.
-/

namespace OtelDerive

/-- The telemetry `Key` type: a string-backed attribute name. -/
structure Key where
  name : String
deriving DecidableEq, Repr

/-- `Key::as_str` returns the underlying name. -/
def Key.asStr (k : Key) : String := k.name

/-- The telemetry `StringValue` type: a wrapped string. -/
structure StringValue where
  str : String
deriving DecidableEq, Repr

/-- `StringValue::as_str` returns the wrapped string. -/
def StringValue.asStr (s : StringValue) : String := s.str

/-- The telemetry `Value` type, restricted to the variants the contract
tests exercise: booleans, 64-bit integers and strings. -/
inductive Value where
  | bool (b : Bool)
  | i64 (n : Int)
  | str (s : String)
deriving DecidableEq, Repr

/-- `Value::as_str` renders the payload as its canonical textual form:
booleans print `true`/`false`, integers print in decimal, strings are
returned unchanged. -/
def Value.asStr : Value → String
  | .bool b => if b then "true" else "false"
  | .i64 n => toString n
  | .str s => s

/-- The telemetry `KeyValue` type: a paired key and value. -/
structure KeyValue where
  key : Key
  value : Value
deriving DecidableEq, Repr

/-- `KeyValue::new` pairs a key with a value. -/
def KeyValue.new (k : Key) (v : Value) : KeyValue := ⟨k, v⟩

/-- A value appearing on the right-hand side of an `otel(...)` option:
either a string literal (as expected by `key = "..."`) or a type
reference (as expected by `variant = T`). -/
inductive OptValue where
  | strLit (s : String)
  | typeRef (t : String)
deriving DecidableEq, Repr

/-- Modelled from the spec: the parse-error taxonomy of the attribute
grammar parser of the missing `opentelemetry_derive_impl` crate.  An
unknown option name, a repeated option name and a value of the wrong
kind are each hard errors. -/
inductive ParseError where
  | UnknownOption (name : String)
  | DuplicateOption (name : String)
  | MalformedOption (name : String)
deriving DecidableEq, Repr

/-- Modelled from the spec: the `AttributeOptions` record of the missing
`opentelemetry_derive_impl` crate — the structured result of parsing one
`otel(...)` block, shared by all capability synthesizers invoked on the
same type.  Both fields are optional at this stage: `key` is always
optional and `variant` is validated per capability. -/
structure AttributeOptions where
  key : Option String
  variant : Option String
deriving DecidableEq, Repr

/-- Modelled from the spec: the option-list walk of the attribute grammar
parser of the missing `opentelemetry_derive_impl` crate.  Each option is
`key = StringLiteral` or `variant = TypeReference`; any other name is an
`UnknownOption` error, a second occurrence of an already-given name is a
`DuplicateOption` error, and a value of the wrong kind is a
`MalformedOption` error. -/
def parseOptions : List (String × OptValue) → AttributeOptions →
    Except ParseError AttributeOptions
  | [], acc => .ok acc
  | (n, v) :: rest, acc =>
    if n = "key" then
      match acc.key with
      | some _ => .error (.DuplicateOption "key")
      | none =>
        match v with
        | .strLit s => parseOptions rest ⟨some s, acc.variant⟩
        | .typeRef _ => .error (.MalformedOption "key")
    else if n = "variant" then
      match acc.variant with
      | some _ => .error (.DuplicateOption "variant")
      | none =>
        match v with
        | .typeRef t => parseOptions rest ⟨acc.key, some t⟩
        | .strLit _ => .error (.MalformedOption "variant")
    else .error (.UnknownOption n)

/-- Modelled from the spec: the entry point of the attribute grammar
parser of the missing `opentelemetry_derive_impl` crate.  A type carries
zero or one `otel(...)` block; absence of the whole block is valid and
yields an `AttributeOptions` with both fields empty. -/
def parseAttrBlock : Option (List (String × OptValue)) →
    Except ParseError AttributeOptions
  | none => .ok ⟨none, none⟩
  | some opts => parseOptions opts ⟨none, none⟩

/-- Modelled from the spec: the validation-error taxonomy of the per
capability validators of the missing `opentelemetry_derive_impl` crate. -/
inductive DeriveError where
  | MissingRequiredOption (name : String)
deriving DecidableEq, Repr

/-- A generated conversion from `α` into a capability type `β`: the pair
of emitted function bodies, one taking the instance by reference
(`fromRef`) and one taking it by value (`fromVal`). -/
structure GeneratedConversion (α β : Type) where
  fromRef : α → β
  fromVal : α → β

/-- Lowercasing a string: every character lowercased, no other
transformation (no word-splitting, no separator insertion). -/
def lowercase (s : String) : String := ⟨s.data.map Char.toLower⟩

/-- Modelled from the spec: the key-string policy of the `Key`
synthesizer of the missing `opentelemetry_derive_impl` crate.  An
explicit `key` option wins; otherwise the key is the type's declared
name with every character lowercased and no other transformation. -/
def keyString (name : String) (opts : AttributeOptions) : String :=
  match opts.key with
  | some k => k
  | none => lowercase name

/-- Modelled from the spec: the `Key` synthesizer of the missing
`opentelemetry_derive_impl` crate.  The by-reference conversion builds a
`Key` from the computed string; the by-value conversion is a trivial
forwarding call to the by-reference one. -/
def synthKey (α : Type) (name : String) (opts : AttributeOptions) :
    GeneratedConversion α Key :=
  let byRef : α → Key := fun _ => ⟨keyString name opts⟩
  ⟨byRef, fun x => byRef x⟩

/-- Modelled from the spec: the conversion chain emitted by the `Value`
synthesizer of the missing `opentelemetry_derive_impl` crate once the
`variant` option is validated.  `userConv` is the user-supplied
conversion from a reference of the type into the variant type and
`variantToValue` the variant type's own conversion into `Value`; the
by-reference conversion chains the two, and the by-value conversion is a
trivial forwarding call to the by-reference one. -/
def valueChain (α V : Type) (userConv : α → V) (variantToValue : V → Value) :
    GeneratedConversion α Value :=
  let byRef : α → Value := fun x => variantToValue (userConv x)
  ⟨byRef, fun x => byRef x⟩

/-- Modelled from the spec: the `Value` validator-and-synthesizer of the
missing `opentelemetry_derive_impl` crate.  The `variant` option is
required: when it is absent, generation fails with
`MissingRequiredOption "variant"` and no conversion is produced;
otherwise the chained conversion is emitted. -/
def synthValue (α V : Type) (opts : AttributeOptions) (userConv : α → V)
    (variantToValue : V → Value) :
    Except DeriveError (GeneratedConversion α Value) :=
  match opts.variant with
  | none => .error (.MissingRequiredOption "variant")
  | some _ => .ok (valueChain α V userConv variantToValue)

/-- Modelled from the spec: the `StringValue` synthesizer of the missing
`opentelemetry_derive_impl` crate.  `display` is the type's own
stringification; the by-reference conversion wraps its result into a
`StringValue` unchanged, and the by-value conversion is a trivial
forwarding call to the by-reference one. -/
def synthStringValue (α : Type) (display : α → String) :
    GeneratedConversion α StringValue :=
  let byRef : α → StringValue := fun x => ⟨display x⟩
  ⟨byRef, fun x => byRef x⟩

/-- Modelled from the spec: the `KeyValue` synthesizer of the missing
`opentelemetry_derive_impl` crate.  `keyConv` and `valueConv` are the
already-available by-reference conversions into `Key` and `Value`; the
by-reference conversion pairs their results into a `KeyValue`, and the
by-value conversion is a trivial forwarding call to the by-reference
one. -/
def synthKeyValue (α : Type) (keyConv : α → Key) (valueConv : α → Value) :
    GeneratedConversion α KeyValue :=
  let byRef : α → KeyValue := fun x => KeyValue.new (keyConv x) (valueConv x)
  ⟨byRef, fun x => byRef x⟩

/-! Concrete types of the façade's contract tests. -/

/-- `struct Auto;` of `tests::test_key`: derives `Key` with no
annotation block. -/
inductive Auto where
  | mk
deriving DecidableEq, Repr

/-- `struct Overriden;` of `tests::test_key`: derives `Key` with
`otel(key = "custom")`. -/
inductive Overriden where
  | mk
deriving DecidableEq, Repr

/-- `struct Counter { count: i64 }` of `tests::test_value`: derives
`Value` with `otel(variant = i64)`. -/
structure Counter where
  count : Int
deriving DecidableEq, Repr

/-- `enum Method { Get, Post }` of `tests::test_string_value`: derives
`StringValue`. -/
inductive Method where
  | get
  | post
deriving DecidableEq, Repr

/-- The `Display` implementation of `Method`. -/
def methodDisplay : Method → String
  | .get => "get"
  | .post => "post"

/-- `struct Config { value: bool }` of `tests::test_key_value`: derives
`KeyValue` from hand-written `Key` and `Value` conversions. -/
structure Config where
  value : Bool
deriving DecidableEq, Repr

/-- The hand-written `From<&Config> for Key` of `tests::test_key_value`:
always the constant key `"config"`. -/
def configKey (_ : Config) : Key := ⟨"config"⟩

/-- The hand-written `From<&Config> for Value` of
`tests::test_key_value`: the `value` field as a boolean `Value`. -/
def configValue (c : Config) : Value := Value.bool c.value

/-- `struct Request { query: String }` of `tests::test_all`: derives all
four capabilities with `otel(key = "req", variant = StringValue)`. -/
structure Request where
  query : String
deriving DecidableEq, Repr

/-- The `Display` implementation of `Request`: the query string. -/
def requestDisplay (r : Request) : String := r.query

/-- The conversion from a `Request` reference into its variant type
`StringValue`, supplied by the derived `StringValue` capability. -/
def requestToVariant (r : Request) : StringValue := ⟨requestDisplay r⟩

/-- The `opentelemetry` conversion from `StringValue` into `Value`: the
string variant. -/
def stringValueToValue (s : StringValue) : Value := Value.str s.str

/-- The options parsed from `Auto`'s (absent) annotation block. -/
def autoOpts : AttributeOptions := ⟨none, none⟩

/-- The conversion generated by `#[derive(Key)]` on `Auto`. -/
def autoKey : GeneratedConversion Auto Key := synthKey Auto "Auto" autoOpts

/-- The options parsed from `Overriden`'s `otel(key = "custom")`. -/
def overridenOpts : AttributeOptions := ⟨some "custom", none⟩

/-- The conversion generated by `#[derive(Key)]` on `Overriden`. -/
def overridenKey : GeneratedConversion Overriden Key :=
  synthKey Overriden "Overriden" overridenOpts

/-- The options parsed from `Counter`'s `otel(variant = i64)`. -/
def counterOpts : AttributeOptions := ⟨none, some "i64"⟩

/-- The conversion generated by `#[derive(Value)]` on `Counter`: chains
the user-supplied `From<&Counter> for i64` (the `count` field) with the
`i64`-into-`Value` conversion. -/
def counterValue : GeneratedConversion Counter Value :=
  valueChain Counter Int (fun c => c.count) Value.i64

/-- The conversion generated by `#[derive(StringValue)]` on `Method`. -/
def methodStringValue : GeneratedConversion Method StringValue :=
  synthStringValue Method methodDisplay

/-- The conversion generated by `#[derive(KeyValue)]` on `Config`. -/
def configKeyValue : GeneratedConversion Config KeyValue :=
  synthKeyValue Config configKey configValue

/-- The options parsed from `Request`'s
`otel(key = "req", variant = StringValue)`. -/
def requestOpts : AttributeOptions := ⟨some "req", some "StringValue"⟩

/-- The conversion generated by `#[derive(Key)]` on `Request`. -/
def requestKey : GeneratedConversion Request Key :=
  synthKey Request "Request" requestOpts

/-- The conversion generated by `#[derive(Value)]` on `Request`: chains
the derived `StringValue` capability with the `StringValue`-into-`Value`
conversion. -/
def requestValue : GeneratedConversion Request Value :=
  valueChain Request StringValue requestToVariant stringValueToValue

/-- The conversion generated by `#[derive(KeyValue)]` on `Request`:
pairs the derived `Key` and `Value` capabilities. -/
def requestKeyValue : GeneratedConversion Request KeyValue :=
  synthKeyValue Request requestKey.fromRef requestValue.fromRef

/-- Splitting an option list: the parser processes an appended list by
processing the first part and, on success, continuing with the second
part from the accumulated options. -/
theorem parseOptions_append (l₁ l₂ : List (String × OptValue))
    (acc : AttributeOptions) :
    parseOptions (l₁ ++ l₂) acc =
      match parseOptions l₁ acc with
      | .ok acc₂ => parseOptions l₂ acc₂
      | .error e => .error e := by
  induction l₁ generalizing acc with
  | nil => simp [parseOptions]
  | cons hd tl ih =>
    obtain ⟨n, v⟩ := hd
    by_cases hk : n = "key"
    · subst hk
      cases hkey : acc.key with
      | some s => simp [parseOptions, hkey]
      | none =>
        cases v with
        | strLit s => simpa [parseOptions, hkey] using ih ⟨some s, acc.variant⟩
        | typeRef t => simp [parseOptions, hkey]
    · by_cases hv : n = "variant"
      · subst hv
        cases hvar : acc.variant with
        | some s => simp [parseOptions, hk, hvar]
        | none =>
          cases v with
          | strLit s => simp [parseOptions, hk, hvar]
          | typeRef t => simpa [parseOptions, hk, hvar] using ih ⟨acc.key, some t⟩
      · simp [parseOptions, hk, hv]

/-- C1: for every type deriving `Key` with no `key` option, the
generated by-reference conversion returns exactly the type's declared
name with every character lowercased and no other transformation. -/
theorem key_default_is_lowercased_type_name (α : Type) (name : String)
    (opts : AttributeOptions) (h : opts.key = none) (x : α) :
    (synthKey α name opts).fromRef x = Key.mk (lowercase name) := by
  simp [synthKey, keyString, h]

/-- Witness for C1: the type `Auto`, with no options, yields the key
`"auto"`. -/
theorem key_default_is_lowercased_type_name_witness :
    (synthKey Auto "Auto" (AttributeOptions.mk none none)).fromRef Auto.mk
      = Key.mk "auto" :=
  (key_default_is_lowercased_type_name Auto "Auto"
    (AttributeOptions.mk none none) rfl Auto.mk).trans (by decide)

/-- C2: for every type deriving `Key` with an explicit `key = "X"`
option, the generated by-reference conversion returns exactly `"X"`,
independent of the type's declared name. -/
theorem key_explicit_option_wins (α : Type) (name s : String)
    (opts : AttributeOptions) (h : opts.key = some s) (x : α) :
    (synthKey α name opts).fromRef x = Key.mk s := by
  simp [synthKey, keyString, h]

/-- Witness for C2: the type `Overriden` with `key = "custom"` yields
the key `"custom"`. -/
theorem key_explicit_option_wins_witness :
    (synthKey Overriden "Overriden"
      (AttributeOptions.mk (some "custom") none)).fromRef Overriden.mk
      = Key.mk "custom" :=
  key_explicit_option_wins Overriden "Overriden" "custom"
    (AttributeOptions.mk (some "custom") none) rfl Overriden.mk

/-- C3: for every type and every derived capability among `Key`,
`Value`, `StringValue` and `KeyValue`, the generated by-value conversion
applied to an instance equals the generated by-reference conversion
applied to the same logical instance. -/
theorem byval_equals_byref :
    (∀ (α : Type) (name : String) (opts : AttributeOptions) (x : α),
      (synthKey α name opts).fromVal x = (synthKey α name opts).fromRef x) ∧
    (∀ (α V : Type) (uc : α → V) (vtv : V → Value) (x : α),
      (valueChain α V uc vtv).fromVal x = (valueChain α V uc vtv).fromRef x) ∧
    (∀ (α : Type) (display : α → String) (x : α),
      (synthStringValue α display).fromVal x
        = (synthStringValue α display).fromRef x) ∧
    (∀ (α : Type) (kc : α → Key) (vc : α → Value) (x : α),
      (synthKeyValue α kc vc).fromVal x = (synthKeyValue α kc vc).fromRef x) :=
  ⟨fun _ _ _ _ => rfl, fun _ _ _ _ _ => rfl, fun _ _ _ => rfl,
    fun _ _ _ _ => rfl⟩

/-- C4: for every type deriving `Value` with `variant = T` and a
user-supplied conversion into `T`, the generated by-reference conversion
is exactly the chained composition of the user conversion and the
variant's conversion into `Value`; concretely, for `Counter` with
`variant = i64` and the user conversion returning `3`, the result
renders as `"3"`. -/
theorem value_is_chained_conversion :
    (∀ (α V : Type) (uc : α → V) (vtv : V → Value) (x : α),
      (valueChain α V uc vtv).fromRef x = vtv (uc x)) ∧
    (counterValue.fromRef (Counter.mk 3)).asStr = "3" :=
  ⟨fun _ _ _ _ _ => rfl, rfl⟩

/-- C5: for every type deriving `StringValue`, the generated
by-reference conversion wraps the type's canonical textual
representation unchanged, and the by-value conversion delegates to it;
concretely, `Method.get` renders as its `Display` output. -/
theorem string_value_wraps_display :
    (∀ (α : Type) (display : α → String) (x : α),
      ((synthStringValue α display).fromRef x).asStr = display x ∧
      (synthStringValue α display).fromVal x
        = (synthStringValue α display).fromRef x) ∧
    (methodStringValue.fromRef Method.get).asStr = methodDisplay Method.get :=
  ⟨fun _ _ _ => ⟨rfl, rfl⟩, rfl⟩

/-- C6: for every type whose references convert into both `Key` and
`Value`, the generated `KeyValue` conversion pairs exactly those two
conversions; concretely, `Config { value: true }` yields
`KeyValue::new("config", true)`. -/
theorem key_value_pairs_existing_conversions :
    (∀ (α : Type) (kc : α → Key) (vc : α → Value) (x : α),
      (synthKeyValue α kc vc).fromRef x = KeyValue.new (kc x) (vc x)) ∧
    configKeyValue.fromRef (Config.mk true)
      = KeyValue.new (Key.mk "config") (Value.bool true) :=
  ⟨fun _ _ _ _ => rfl, rfl⟩

/-- C7: a single `otel(key = "req", variant = StringValue)` block parses
once into one shared `AttributeOptions` record that simultaneously
parameterizes the `Key` derivation (explicit key `"req"`) and the
`Value` derivation (variant `StringValue`), and the `KeyValue`
derivation composes both: for a `Request` with query `"foo=bar"`,
`KeyValue::from(&request) == KeyValue::new("req", "foo=bar")`. -/
theorem shared_options_parameterize_all_derivations :
    parseAttrBlock (some [("key", OptValue.strLit "req"),
      ("variant", OptValue.typeRef "StringValue")]) = .ok requestOpts ∧
    requestKey.fromRef (Request.mk "foo=bar") = Key.mk "req" ∧
    synthValue Request StringValue requestOpts requestToVariant
      stringValueToValue = .ok requestValue ∧
    requestKeyValue.fromRef (Request.mk "foo=bar")
      = KeyValue.new (Key.mk "req") (Value.str "foo=bar") :=
  ⟨rfl, rfl, rfl, rfl⟩

/-- C8: for every `Value` derivation on a type whose annotation block
has no `variant` option, generation fails with
`MissingRequiredOption "variant"`; no conversion is generated and no
default is substituted. -/
theorem missing_variant_fails_generation (α V : Type)
    (opts : AttributeOptions) (uc : α → V) (vtv : V → Value)
    (h : opts.variant = none) :
    synthValue α V opts uc vtv
      = .error (DeriveError.MissingRequiredOption "variant") := by
  simp [synthValue, h]

/-- Witness for C8: a `Value` derivation on `Counter` with an empty
annotation block fails with `MissingRequiredOption "variant"`. -/
theorem missing_variant_fails_generation_witness :
    synthValue Counter Int (AttributeOptions.mk none none)
      (fun c => c.count) Value.i64
      = .error (DeriveError.MissingRequiredOption "variant") :=
  missing_variant_fails_generation Counter Int
    (AttributeOptions.mk none none) (fun c => c.count) Value.i64 rfl

/-- C9: an option name other than `key` or `variant`, anywhere in the
block, is an `UnknownOption` parse error; a second occurrence of an
already-given option name is a `DuplicateOption` parse error; and
complete absence of the `otel(...)` block is valid, yielding an
`AttributeOptions` with both fields empty. -/
theorem unknown_and_duplicate_rejected_absence_valid :
    (∀ (l rest : List (String × OptValue)) (acc : AttributeOptions)
      (n : String) (v : OptValue),
      parseOptions l ⟨none, none⟩ = .ok acc → n ≠ "key" → n ≠ "variant" →
      parseAttrBlock (some (l ++ (n, v) :: rest))
        = .error (ParseError.UnknownOption n)) ∧
    (∀ (l rest : List (String × OptValue)) (acc : AttributeOptions)
      (s : String) (v : OptValue),
      parseOptions l ⟨none, none⟩ = .ok acc → acc.key = some s →
      parseAttrBlock (some (l ++ ("key", v) :: rest))
        = .error (ParseError.DuplicateOption "key")) ∧
    (∀ (l rest : List (String × OptValue)) (acc : AttributeOptions)
      (s : String) (v : OptValue),
      parseOptions l ⟨none, none⟩ = .ok acc → acc.variant = some s →
      parseAttrBlock (some (l ++ ("variant", v) :: rest))
        = .error (ParseError.DuplicateOption "variant")) ∧
    parseAttrBlock none = .ok ⟨none, none⟩ := by
  refine ⟨fun l rest acc n v hl h1 h2 => ?_, fun l rest acc s v hl hk => ?_,
    fun l rest acc s v hl hv => ?_, rfl⟩
  · simp only [parseAttrBlock, parseOptions_append, hl]
    simp [parseOptions, h1, h2]
  · simp only [parseAttrBlock, parseOptions_append, hl]
    simp [parseOptions, hk]
  · simp only [parseAttrBlock, parseOptions_append, hl]
    simp [parseOptions, hv]

/-- Witness for C9: `bogus = "x"` after a valid `key = "a"` is rejected
as unknown, a repeated `key` and a repeated `variant` are rejected as
duplicates. -/
theorem unknown_and_duplicate_rejected_absence_valid_witness :
    parseAttrBlock (some [("key", OptValue.strLit "a"),
      ("bogus", OptValue.strLit "x")])
      = .error (ParseError.UnknownOption "bogus") ∧
    parseAttrBlock (some [("key", OptValue.strLit "a"),
      ("key", OptValue.strLit "b")])
      = .error (ParseError.DuplicateOption "key") ∧
    parseAttrBlock (some [("variant", OptValue.typeRef "a"),
      ("variant", OptValue.typeRef "b")])
      = .error (ParseError.DuplicateOption "variant") :=
  ⟨unknown_and_duplicate_rejected_absence_valid.1
      [("key", OptValue.strLit "a")] [] ⟨some "a", none⟩ "bogus"
      (OptValue.strLit "x") rfl (by decide) (by decide),
    unknown_and_duplicate_rejected_absence_valid.2.1
      [("key", OptValue.strLit "a")] [] ⟨some "a", none⟩ "a"
      (OptValue.strLit "b") rfl rfl,
    unknown_and_duplicate_rejected_absence_valid.2.2.1
      [("variant", OptValue.typeRef "a")] [] ⟨none, some "a"⟩ "a"
      (OptValue.typeRef "b") rfl rfl⟩

/-- C10: for every type deriving `Value` with `variant = T`, the
generated by-value conversion works from the single user-supplied
by-reference conversion into `T`, routing the owned value through it;
concretely, an owned `Counter { count: 3 }` converts by value and
renders as `"3"`. -/
theorem byval_routes_through_ref_conversion :
    (∀ (α V : Type) (uc : α → V) (vtv : V → Value) (x : α),
      (valueChain α V uc vtv).fromVal x = vtv (uc x)) ∧
    (counterValue.fromVal (Counter.mk 3)).asStr = "3" :=
  ⟨fun _ _ _ _ _ => rfl, rfl⟩

end OtelDerive
